import Mathlib

/-!
Verification of the SuperShuckie 2 session-control layer against its
specification.  The definitions below are shallow embeddings of the C/C++
sources under three components:

* the Poke-A-Byte shared-memory bridge
  (supershuckie-pokeabyte-integration/src/shared_memory/linux.c and windows.c),
* the Qt main window and replay controls
  (supershuckie-qt/src/main_window.cpp, replay_playback_controls.cpp,
  sdl_event_wrapper.cpp),
* the frontend C API (supershuckie-frontend-c/include/supershuckie/frontend.h);
  the frontend implementation itself is not part of the sources, so those
  semantics are modelled from the specification where needed (each such
  definition is marked).
-/

namespace SuperShuckie

/-! ## Memory export bridge, Linux backing (shared_memory/linux.c)

The file-scope variable is `static int fd = -1;`.  We model the descriptor as
an `Option Nat`: `none` is `fd == -1` (not enabled), `some n` a live
descriptor.  Success or failure of the `open(2)` and `mmap(2)` syscalls is
supplied by the caller as oracle booleans. -/

structure LinuxShm where
  fd : Option Nat
deriving DecidableEq, Repr

/-- Result of one call to `supershuckie_pokeabyte_try_create_shared_memory`:
the updated file-scope state, whether a non-null pointer was returned, and the
string written through the `error` out-parameter. -/
structure CreateResult (σ : Type) where
  state : σ
  returnedPtr : Bool
  error : String
deriving DecidableEq, Repr

/-- Shallow embedding of `supershuckie_pokeabyte_try_create_shared_memory`
from linux.c.  `openOk` and `mmapOk` tell whether the respective syscalls
succeed, and `newFd` is the descriptor `open` would return. -/
def linux_try_create_shared_memory (s : LinuxShm) (openOk : Bool) (newFd : Nat)
    (mmapOk : Bool) : CreateResult LinuxShm :=
  if s.fd ≠ none then
    ⟨s, false, "shared memory already created"⟩
  else if ¬ openOk then
    ⟨s, false, "open failed"⟩
  else if ¬ mmapOk then
    -- the new descriptor is closed again; `fd` is never assigned
    ⟨s, false, "mmap failed"⟩
  else
    ⟨⟨some newFd⟩, true, "succeeded"⟩

/-- Outcome of `supershuckie_pokeabyte_close_shared_memory` on Linux: either a
normal return with the updated state, or a call to `abort()`. -/
inductive LinuxCloseOutcome where
  | normal (s : LinuxShm)
  | aborted
deriving DecidableEq, Repr

/-- Shallow embedding of `supershuckie_pokeabyte_close_shared_memory` from
linux.c: aborts when `fd == -1`, otherwise closes the descriptor and resets
`fd` to `-1`. -/
def linux_close_shared_memory (s : LinuxShm) : LinuxCloseOutcome :=
  if s.fd = none then
    .aborted
  else
    .normal ⟨none⟩

/-! ## Memory export bridge, Windows backing (shared_memory/windows.c)

The file-scope variable is `static HANDLE handle = INVALID_HANDLE_VALUE;`.
`handleValid` models `handle != INVALID_HANDLE_VALUE`. -/

structure WindowsShm where
  handleValid : Bool
deriving DecidableEq, Repr

/-- Shallow embedding of `supershuckie_pokeabyte_try_create_shared_memory`
from windows.c.  `createOk` tells whether `CreateFileMappingA` succeeds and
`mapOk` whether `MapViewOfFile` returns a non-null view. -/
def windows_try_create_shared_memory (s : WindowsShm) (createOk : Bool)
    (mapOk : Bool) : CreateResult WindowsShm :=
  if s.handleValid then
    ⟨s, false, "shared memory already created"⟩
  else if ¬ createOk then
    ⟨s, false, "CreateFileMappingA failed"⟩
  else
    -- `handle` is assigned before `MapViewOfFile`; the view pointer is
    -- whatever `MapViewOfFile` returns, and no error string is written
    ⟨⟨true⟩, mapOk, ""⟩

/-- Shallow embedding of `supershuckie_pokeabyte_close_shared_memory` from
windows.c, exactly as written: the body runs only when
`handle == INVALID_HANDLE_VALUE` (it then calls `CloseHandle` on the invalid
handle and re-assigns `INVALID_HANDLE_VALUE`); when the handle is valid the
function does nothing.  There is no abort path on this platform. -/
def windows_close_shared_memory (s : WindowsShm) : WindowsShm :=
  if s.handleValid = false then
    ⟨false⟩
  else
    s

/-! ## Replay playback position bar (replay_playback_controls.cpp)

`ReplayPlaybackControls::progress_to_frame` converts the clicked position on
the bar (a `double` in the source) into a frame index.  The arithmetic is
modelled exactly over the rationals; the final conversion
`uint32_t <- double` truncates the non-negative value, i.e. takes the floor. -/

/-- Shallow embedding of `ReplayPlaybackControls::progress_to_frame`:
clamps at 0 below, at `total_frames` above, and otherwise returns
`total_frames * progress + 0.5` truncated to an integer. -/
def progress_to_frame (total_frames : ℕ) (progress : ℚ) : ℕ :=
  if progress ≤ 0 then
    0
  else if 1 ≤ progress then
    total_frames
  else
    (⌊(total_frames : ℚ) * progress + 1 / 2⌋).toNat

/-! ## Save states in the Qt layer (main_window.cpp)

`MainWindow::make_save_state` and `MainWindow::load_save_state` wrap the
frontend C API; `quick_save` and `quick_load` format the slot name
`snprintf(fmt, "quick-%d", index)` and call those same two wrappers.  The
frontend call result (the returned flag plus the text left in the caller's
buffer) is passed in as `res`, since the frontend implementation is opaque
here. -/

/-- The replay status of the session, as in main_window.hpp. -/
inductive ReplayStatus where
  | noReplay
  | recording
  | playingBack
deriving DecidableEq, Repr

/-- A call into the frontend save-state API, as issued by the Qt layer. -/
inductive SaveStateCall where
  | create (name : String)
  | load (name : String)
deriving DecidableEq, Repr

/-- What MainWindow reports to the user after a save-state operation: a
status-bar message via `set_title`, or a modal error dialog. -/
inductive UiReport where
  | statusMessage (text : String)
  | errorDialog (title text : String)
deriving DecidableEq, Repr

/-- Shallow embedding of `MainWindow::make_save_state`: issues the frontend
create call with the given name; on success the buffer holds the final slot
name and a status message is shown, otherwise an error dialog. -/
def make_save_state (state : String) (res : Bool × String) :
    SaveStateCall × UiReport :=
  (.create state,
    if res.1 then
      .statusMessage ("Created state \"" ++ res.2 ++ "\"")
    else
      .errorDialog "Failed to create save state" res.2)

/-- Shallow embedding of `MainWindow::load_save_state`: issues the frontend
load call; on success shows a status message, on failure with a non-empty
error buffer shows an error dialog, and on failure with an empty buffer
(slot absent) shows only a status message. -/
def load_save_state (state : String) (res : Bool × String) :
    SaveStateCall × UiReport :=
  (.load state,
    if res.1 then
      .statusMessage ("Loaded state \"" ++ state ++ "\"")
    else if res.2 ≠ "" then
      .errorDialog "Failed to load save state" res.2
    else
      .statusMessage ("State \"" ++ state ++ "\" does not exist"))

/-- Shallow embedding of `MainWindow::load_save_state` as invoked while the
session is in a given replay status: the source body contains no check of the
replay status whatsoever, so the call proceeds identically in every mode. -/
def load_save_state_during (status : ReplayStatus) (state : String)
    (res : Bool × String) : SaveStateCall × UiReport :=
  load_save_state state res

/-- Modelled from the spec: the implementation behind
`supershuckie_frontend_load_save_state` is not under src/ (only its
declaration in frontend.h).  Per frontend.h and spec section 4.2 the
observable outcome is Success, NotFound (slot absent), or a structural
failure carrying a human-readable message. -/
inductive LoadSaveStateOutcome where
  | success
  | notFound
  | failure (msg : String)
deriving DecidableEq, Repr

/-- Modelled from the spec: the (returned flag, error buffer) pair written by
`supershuckie_frontend_load_save_state` — per frontend.h, on failure "an
error will be written UNLESS it was because the save state did not exist, in
which case the error will be empty". -/
def frontend_load_save_state_result : LoadSaveStateOutcome → Bool × String
  | .success => (true, "")
  | .notFound => (false, "")
  | .failure msg => (false, msg)

/-- The slot name formatted by `MainWindow::quick_save` and
`MainWindow::quick_load`. -/
def quickSlotName (index : Nat) : String :=
  "quick-" ++ Nat.repr index

/-- Shallow embedding of `MainWindow::quick_save`: formats the quick-slot
name and calls `make_save_state` with it. -/
def quick_save (index : Nat) (res : Bool × String) :
    SaveStateCall × UiReport :=
  make_save_state (quickSlotName index) res

/-- Shallow embedding of `MainWindow::quick_load`: formats the quick-slot
name and calls `load_save_state` with it. -/
def quick_load (index : Nat) (res : Bool × String) :
    SaveStateCall × UiReport :=
  load_save_state (quickSlotName index) res

/-! ## Menu action states (MainWindow::refresh_action_states) -/

/-- The enabled flags and texts that `MainWindow::refresh_action_states`
assigns.  The two nine-element quick-slot arrays are indexed by `Fin 9`
(`QUICK_SAVE_STATE_COUNT = 9`). -/
structure ActionStates where
  gameplay_menu_enabled : Bool
  replays_menu_enabled : Bool
  close_rom_enabled : Bool
  unload_rom_enabled : Bool
  quick_load_enabled : Fin 9 → Bool
  quick_save_enabled : Fin 9 → Bool
  undo_load_save_state_enabled : Bool
  redo_load_save_state_enabled : Bool
  play_replay_enabled : Bool
  record_replay_enabled : Bool
  resume_replay_enabled : Bool
  record_replay_text : String
  play_replay_text : String
  current_state_text : String

/-- Shallow embedding of `MainWindow::refresh_action_states`.  Inputs:
`frontendPresent` is `frontend != nullptr`, `gameLoaded` the result of
`is_game_running()`, `recording` whether
`supershuckie_frontend_get_recording_replay_file` returned non-null, and
`playingBack` the result of `supershuckie_frontend_get_replay_playback_time`.
The function first assigns every flag from `gameLoaded`, then overrides
according to the recording branch, else the playback branch. -/
def refresh_action_states (frontendPresent gameLoaded recording playingBack : Bool) :
    ActionStates :=
  let base : ActionStates :=
    { gameplay_menu_enabled := gameLoaded
      replays_menu_enabled := gameLoaded
      close_rom_enabled := gameLoaded
      unload_rom_enabled := gameLoaded
      quick_load_enabled := fun _ => gameLoaded
      quick_save_enabled := fun _ => gameLoaded
      undo_load_save_state_enabled := gameLoaded
      redo_load_save_state_enabled := gameLoaded
      play_replay_enabled := gameLoaded
      record_replay_enabled := gameLoaded
      resume_replay_enabled := gameLoaded
      record_replay_text := "Record replay"
      play_replay_text := "Play replay"
      current_state_text := "" }
  if frontendPresent && recording then
    { base with
      play_replay_enabled := false
      resume_replay_enabled := false
      current_state_text := "RECORDING"
      record_replay_text := "Stop recording replay" }
  else if frontendPresent && playingBack then
    { base with
      record_replay_enabled := false
      resume_replay_enabled := false
      current_state_text := "PLAYBACK"
      -- prevent loading any save states (quick_save is still allowed)
      redo_load_save_state_enabled := false
      undo_load_save_state_enabled := false
      quick_load_enabled := fun _ => false
      play_replay_text := "Stop replay" }
  else
    base

/-! ## Device-event polling (sdl_event_wrapper.cpp and MainWindow::tick)

`MainWindow::tick` first drains the SDL event queue through
`SDLEventWrapper::next` — which itself forwards controller connects and
disconnects to the frontend and hands axis/button events back to `tick`,
which forwards them — and only after the queue is drained calls
`supershuckie_frontend_tick`.  The code between the polling loop and the
final tick call (status-bar titles, FPS text, replay-time display, the
Poke-A-Byte status query) performs only reads and UI updates, no frontend
device calls and no engine advance, so it is not part of the call trace. -/

/-- A raw SDL event as dispatched in `SDLEventWrapper::next`.  `openOk` on
`gamepadAdded` models whether `SDL_OpenGamepad` succeeds. -/
inductive SDLEvent where
  | quit
  | gamepadAdded (id : Nat) (openOk : Bool) (name : String)
  | gamepadRemoved (id : Nat)
  | axisMotion (id : Nat) (axisIdx : Nat) (value : Int)
  | buttonEvent (id : Nat) (button : Nat) (down : Bool)
  | unhandled
deriving DecidableEq, Repr

/-- A call into the frontend made while handling one host tick, in order.
`tickAdvance` is the final `supershuckie_frontend_tick`. -/
inductive FrontendCall where
  | connectController (name : String)
  | disconnectController (mapping : Nat)
  | axisForward (mapping : Nat) (axisIdx : Nat) (value : ℚ)
  | buttonForward (mapping : Nat) (button : Nat) (pressed : Bool)
  | tickAdvance
deriving DecidableEq, Repr

/-- The `connected_controllers` table of `SDLEventWrapper` plus a counter
modelling the mapping handles the frontend hands out on connect. -/
structure SDLState where
  controllers : List (Nat × String × Nat)
  nextMapping : Nat
deriving DecidableEq, Repr

/-- Lookup in the connected-controller table by SDL instance id. -/
def lookupController (cs : List (Nat × String × Nat)) (id : Nat) :
    Option (String × Nat) :=
  match cs with
  | [] => none
  | (i, n, m) :: rest => if i = id then some (n, m) else lookupController rest id

/-- Removal from the connected-controller table by SDL instance id. -/
def removeController (cs : List (Nat × String × Nat)) (id : Nat) :
    List (Nat × String × Nat) :=
  match cs with
  | [] => []
  | (i, n, m) :: rest =>
      if i = id then removeController rest id
      else (i, n, m) :: removeController rest id

/-- The axis normalization in `SDLEventWrapper::next`: divide the raw value
by 32767, zero a small dead zone, clamp to [-1, 1]. -/
def normalizeAxis (value : Int) : ℚ :=
  let v : ℚ := (value : ℚ) / 32767
  let v := if -(5 / 100) < v ∧ v < 5 / 100 then 0 else v
  let v := if 1 < v then 1 else v
  if v < -1 then -1 else v

/-- The discriminator of the result `SDLEventWrapper::next` hands back to the
caller. -/
inductive NextAction where
  | noOp
  | quitAction
  | axisAction (mapping : Nat) (axisIdx : Nat) (value : ℚ)
  | buttonAction (mapping : Nat) (button : Nat) (pressed : Bool)
deriving DecidableEq, Repr

/-- Everything one call to `SDLEventWrapper::next` produces: the updated
wrapper state, the part of the queue it did not consume, the frontend calls
it made itself (controller connects/disconnects), and its returned result. -/
structure NextOut where
  state : SDLState
  remaining : List SDLEvent
  calls : List FrontendCall
  result : NextAction
deriving Repr

/-- Shallow embedding of `SDLEventWrapper::next`: polls events until one must
be returned to the caller (quit, axis motion or button event of a connected
controller) or the queue is empty.  Gamepad added/removed events are handled
inline: they call `supershuckie_frontend_connect_controller` /
`supershuckie_frontend_disconnect_controller` and polling continues; events
for unknown controller ids and unhandled event types are skipped. -/
def SDLEventWrapper_next (s : SDLState) : List SDLEvent → NextOut
  | [] => ⟨s, [], [], .noOp⟩
  | .quit :: rest => ⟨s, rest, [], .quitAction⟩
  | .gamepadAdded id openOk name :: rest =>
      if openOk then
        -- connect_controller returns the mapping; emplace inserts the
        -- (id -> controller) entry only when the id is not already present
        let controllers :=
          if (lookupController s.controllers id).isSome then s.controllers
          else (id, name, s.nextMapping) :: s.controllers
        let out := SDLEventWrapper_next ⟨controllers, s.nextMapping + 1⟩ rest
        ⟨out.state, out.remaining, .connectController name :: out.calls, out.result⟩
      else
        SDLEventWrapper_next s rest
  | .gamepadRemoved id :: rest =>
      match lookupController s.controllers id with
      | none => SDLEventWrapper_next s rest
      | some (_, mapping) =>
          let out :=
            SDLEventWrapper_next ⟨removeController s.controllers id, s.nextMapping⟩ rest
          ⟨out.state, out.remaining, .disconnectController mapping :: out.calls,
            out.result⟩
  | .axisMotion id axisIdx value :: rest =>
      match lookupController s.controllers id with
      | none => SDLEventWrapper_next s rest
      | some (_, mapping) =>
          ⟨s, rest, [], .axisAction mapping axisIdx (normalizeAxis value)⟩
  | .buttonEvent id button down :: rest =>
      match lookupController s.controllers id with
      | none => SDLEventWrapper_next s rest
      | some (_, mapping) => ⟨s, rest, [], .buttonAction mapping button down⟩
  | .unhandled :: rest => SDLEventWrapper_next s rest

/-- Result of the polling loop at the top of `MainWindow::tick`. -/
structure TickLoopOut where
  state : SDLState
  calls : List FrontendCall
  remaining : List SDLEvent
  earlyReturn : Bool
deriving Repr

/-- The `while(true)` polling loop of `MainWindow::tick`: repeatedly calls
`SDLEventWrapper::next`, forwarding axis and button results through
`supershuckie_frontend_axis` / `supershuckie_frontend_button_press`, until a
no-op result breaks the loop.  On a quit result the window is closed;
`closeOk` models whether the close succeeds — when it does, tick returns
early, otherwise a warning is printed and polling continues. -/
def tick_event_loop (s : SDLState) (events : List SDLEvent) (closeOk : Bool) :
    TickLoopOut :=
  let out := SDLEventWrapper_next s events
  match h : out.result with
  | .noOp => ⟨out.state, out.calls, out.remaining, false⟩
  | .quitAction =>
      if closeOk then ⟨out.state, out.calls, out.remaining, true⟩
      else
        let rec2 := tick_event_loop out.state out.remaining closeOk
        ⟨rec2.state, out.calls ++ rec2.calls, rec2.remaining, rec2.earlyReturn⟩
  | .axisAction m a v =>
      let rec2 := tick_event_loop out.state out.remaining closeOk
      ⟨rec2.state, out.calls ++ .axisForward m a v :: rec2.calls, rec2.remaining,
        rec2.earlyReturn⟩
  | .buttonAction m b p =>
      let rec2 := tick_event_loop out.state out.remaining closeOk
      ⟨rec2.state, out.calls ++ .buttonForward m b p :: rec2.calls, rec2.remaining,
        rec2.earlyReturn⟩
termination_by events.length
decreasing_by
  all_goals
    have key : ∀ (evs : List SDLEvent) (st : SDLState),
        (SDLEventWrapper_next st evs).result ≠ NextAction.noOp →
          (SDLEventWrapper_next st evs).remaining.length < evs.length := by
      intro evs
      induction evs with
      | nil => intro st hne; exact absurd rfl hne
      | cons e rest ih =>
          intro st hne
          cases e with
          | quit => exact Nat.lt_succ_self rest.length
          | gamepadAdded id openOk name =>
              by_cases hok : openOk
              · simp only [SDLEventWrapper_next, if_pos hok] at hne ⊢
                exact Nat.lt_succ_of_lt (ih _ hne)
              · simp only [SDLEventWrapper_next, if_neg hok] at hne ⊢
                exact Nat.lt_succ_of_lt (ih _ hne)
          | gamepadRemoved id =>
              simp only [SDLEventWrapper_next] at hne ⊢
              revert hne
              cases lookupController st.controllers id with
              | none => intro hne; exact Nat.lt_succ_of_lt (ih _ hne)
              | some p =>
                  obtain ⟨pn, pm⟩ := p
                  intro hne
                  exact Nat.lt_succ_of_lt (ih _ hne)
          | axisMotion id a v =>
              simp only [SDLEventWrapper_next] at hne ⊢
              revert hne
              cases lookupController st.controllers id with
              | none => intro hne; exact Nat.lt_succ_of_lt (ih _ hne)
              | some p =>
                  obtain ⟨pn, pm⟩ := p
                  intro hne
                  exact Nat.lt_succ_self rest.length
          | buttonEvent id b d =>
              simp only [SDLEventWrapper_next] at hne ⊢
              revert hne
              cases lookupController st.controllers id with
              | none => intro hne; exact Nat.lt_succ_of_lt (ih _ hne)
              | some p =>
                  obtain ⟨pn, pm⟩ := p
                  intro hne
                  exact Nat.lt_succ_self rest.length
          | unhandled =>
              simp only [SDLEventWrapper_next] at hne ⊢
              exact Nat.lt_succ_of_lt (ih _ hne)
    exact key events s (by rw [h]; intro hc; cases hc)

/-- Shallow embedding of one invocation of `MainWindow::tick` as the ordered
trace of frontend calls it makes: the polling-loop calls, then — unless the
loop returned early via a successful quit — the single
`supershuckie_frontend_tick` that advances the engine. -/
def MainWindow_tick (s : SDLState) (events : List SDLEvent) (closeOk : Bool) :
    List FrontendCall :=
  let out := tick_event_loop s events closeOk
  if out.earlyReturn then out.calls else out.calls ++ [FrontendCall.tickAdvance]

/-! ## Replay playback start (MainWindow::do_play_replay)

The Qt handler is in src/; the frontend side of
`supershuckie_frontend_load_replay` is not, so its validation semantics are
modelled from the spec (section 4.3 and the header comment). -/

/-- Modelled from the spec: a replay-log header carries the name, the target
ROM identity and a format version; `formatOk` abstracts the format/version
checks that the lenient flag does not bypass (spec section 9: lenient
bypasses only the identity check). -/
structure ReplayLogHeader where
  name : String
  romIdentity : String
  formatOk : Bool
deriving DecidableEq, Repr

/-- Modelled from the spec: the replay-relevant frontend state — the identity
of the currently loaded ROM and the session's replay status. -/
structure FrontendReplayState where
  romIdentity : String
  status : ReplayStatus
deriving DecidableEq, Repr

/-- Modelled from the spec: `supershuckie_frontend_load_replay` (its
implementation is not under src/).  It validates the log header against the
loaded ROM identity: a format failure is an error regardless of `lenient`; an
identity mismatch is a descriptive error exactly when `lenient` is false; on
success the session transitions to playback.  Returns the success flag, the
new frontend state, and the error text written to the caller's buffer. -/
def supershuckie_frontend_load_replay (st : FrontendReplayState)
    (log : ReplayLogHeader) (lenient : Bool) :
    Bool × FrontendReplayState × String :=
  if ¬ log.formatOk then
    (false, st, "replay file is corrupt or has an unsupported format version")
  else if log.romIdentity ≠ st.romIdentity ∧ ¬ lenient then
    (false, st, "the replay was recorded against a different ROM")
  else
    (true, { st with status := .playingBack }, "")

/-- Trace of one `MainWindow::do_play_replay` invocation: the final frontend
state, the `lenient` flag of each `supershuckie_frontend_load_replay` call
made, in order, and the UI reports shown. -/
structure PlayReplayTrace where
  finalState : FrontendReplayState
  lenientAttempts : List Bool
  reports : List UiReport
deriving DecidableEq, Repr

/-- Shallow embedding of `MainWindow::do_play_replay`: a click while playing
back stops the replay; otherwise, with a replay selected in the dialog
(`selection`, none when the dialog is cancelled), it calls
`supershuckie_frontend_load_replay` with `lenient = false` and, if that
fails, shows the error dialog and retries exactly once with
`lenient = true`; a failing retry returns silently. -/
def do_play_replay (st : FrontendReplayState)
    (selection : Option ReplayLogHeader) : PlayReplayTrace :=
  if st.status = .playingBack then
    { finalState := { st with status := .noReplay }
      lenientAttempts := []
      reports := [.statusMessage "Closed replay"] }
  else
    match selection with
    | none => { finalState := st, lenientAttempts := [], reports := [] }
    | some log =>
        let first := supershuckie_frontend_load_replay st log false
        if first.1 then
          { finalState := first.2.1
            lenientAttempts := [false]
            reports :=
              [.statusMessage ("Opened replay file \"" ++ log.name ++ "\"")] }
        else
          let second := supershuckie_frontend_load_replay st log true
          if second.1 then
            { finalState := second.2.1
              lenientAttempts := [false, true]
              reports :=
                [.errorDialog "Replay file issues detected" first.2.2,
                  .statusMessage ("Opened replay file \"" ++ log.name ++ "\"")] }
          else
            { finalState := second.2.1
              lenientAttempts := [false, true]
              reports := [.errorDialog "Replay file issues detected" first.2.2] }

/-! ## Replay determinism (modelled from the spec)

The Replay Engine and Session Controller implementations are not under src/;
the determinism contract of spec section 4.3 is modelled here over an
arbitrary engine satisfying the engine contract of spec section 6: advancing
is a pure function of the (engine state, frame input) pair.  The host
environment (wall clock, device identity, UI state) feeds only the wall-clock
pacing of a tick, never the engine stepping. -/

/-- Modelled from the spec: host-side data visible during a tick that must
never leak into engine advancement. -/
structure HostEnv where
  wallClockMicros : Nat
  deviceId : Nat
  uiVisible : Bool
deriving DecidableEq, Repr

/-- Modelled from the spec: one playback tick over engine states `E` and
frame inputs `I`.  The state is the (engine snapshot, playback cursor) pair;
if the log still holds a record at the cursor it is fed to the engine, which
advances one frame; past the end of the log the engine does not advance.
The second component is the wall-clock pacing delay, the only place the host
environment enters. -/
def playbackTick {E I : Type} (step : E → I → E) (env : HostEnv)
    (st : E × Nat) (log : List I) : (E × Nat) × Nat :=
  match log[st.2]? with
  | some inp => ((step st.1 inp, st.2 + 1), env.wallClockMicros)
  | none => (st, env.wallClockMicros)

/-- Modelled from the spec: the (engine snapshot, cursor) pair after `n`
playback ticks of the log from starting state `s0`. -/
def playbackRun {E I : Type} (step : E → I → E) (env : HostEnv) (s0 : E)
    (log : List I) : Nat → E × Nat
  | 0 => (s0, 0)
  | n + 1 => (playbackTick step env (playbackRun step env s0 log n) log).1

/-- Modelled from the spec: the engine snapshot after `n` recorded frames,
where the frame input of frame `k` comes from the live devices (`live k`). -/
def recordRun {E I : Type} (step : E → I → E) (s0 : E) (live : Nat → I) :
    Nat → E
  | 0 => s0
  | n + 1 => step (recordRun step s0 live n) (live n)

/-- Modelled from the spec: the log written while recording `frames` frames —
the live input of every frame, indexed in frame order with no gaps or
duplicates. -/
def recordedLog {I : Type} (live : Nat → I) (frames : Nat) : List I :=
  (List.range frames).map live

end SuperShuckie

namespace SuperShuckie

/-! ## Theorems about the memory export bridge -/

/-- Helper: on Linux a successful create leaves a live descriptor. -/
theorem linux_create_success_state (s : LinuxShm) (openOk : Bool) (newFd : Nat)
    (mmapOk : Bool)
    (h : (linux_try_create_shared_memory s openOk newFd mmapOk).returnedPtr = true) :
    (linux_try_create_shared_memory s openOk newFd mmapOk).state = ⟨some newFd⟩ := by
  unfold linux_try_create_shared_memory at h ⊢
  split at h
  · simp at h
  · split at h
    · simp at h
    · split at h
      · simp at h
      · rename_i h1 h2 h3
        rw [if_neg h1, if_neg h2, if_neg h3]

/-- C2: the claim states that calling the disable operation while the bridge
is not enabled aborts on every platform.  The Linux implementation does abort;
the Windows implementation instead runs its body exactly when the handle is
`INVALID_HANDLE_VALUE`, calling `CloseHandle` on the invalid handle and
returning normally — and it leaves a *valid* handle untouched.  This theorem
evaluates both implementations at the not-enabled state: Linux aborts, Windows
returns normally (no abort path exists in its embedding at all). -/
theorem C2_close_when_not_enabled :
    linux_close_shared_memory ⟨none⟩ = .aborted
      ∧ windows_close_shared_memory ⟨false⟩ = ⟨false⟩
      ∧ windows_close_shared_memory ⟨true⟩ = ⟨true⟩ := by
  refine ⟨rfl, rfl, rfl⟩

/-- C3: the claim states that enable-then-disable releases the OS resource on
every platform, so a further enable succeeds.  On Linux this holds: after a
successful create followed by a close, the state is back to `fd == -1` and a
new create (with succeeding syscalls) returns a fresh mapping.  On Windows it
fails: after a successful create, `supershuckie_pokeabyte_close_shared_memory`
leaves the valid handle in place, so the next create returns null with the
"already created" error.  This theorem exhibits both facts, the Windows half
at the concrete failing trace. -/
theorem C3_enable_disable_enable :
    (∀ (s : LinuxShm) (openOk : Bool) (newFd : Nat) (mmapOk : Bool),
      (linux_try_create_shared_memory s openOk newFd mmapOk).returnedPtr = true →
        linux_close_shared_memory
            (linux_try_create_shared_memory s openOk newFd mmapOk).state
          = .normal ⟨none⟩
        ∧ ∀ newFd2 : Nat,
            (linux_try_create_shared_memory ⟨none⟩ true newFd2 true).returnedPtr
              = true)
      ∧ ((windows_try_create_shared_memory ⟨false⟩ true true).returnedPtr = true
        ∧ windows_close_shared_memory
            (windows_try_create_shared_memory ⟨false⟩ true true).state
          = ⟨true⟩
        ∧ (windows_try_create_shared_memory
            (windows_close_shared_memory
              (windows_try_create_shared_memory ⟨false⟩ true true).state)
            true true).returnedPtr = false
        ∧ (windows_try_create_shared_memory
            (windows_close_shared_memory
              (windows_try_create_shared_memory ⟨false⟩ true true).state)
            true true).error = "shared memory already created") := by
  constructor
  · intro s openOk newFd mmapOk h
    rw [linux_create_success_state s openOk newFd mmapOk h]
    exact ⟨rfl, fun _ => rfl⟩
  · exact ⟨rfl, rfl, rfl, rfl⟩

/-- C4: if the bridge is already enabled, any further enable call fails on
both platforms: it returns null, writes the "already created" error, and
leaves the state unchanged. -/
theorem C4_double_enable_fails (ls : LinuxShm) (n : Nat) (openOk : Bool)
    (newFd : Nat) (mmapOk : Bool) (ws : WindowsShm)
    (hl : ls.fd = some n) (hw : ws.handleValid = true) :
    linux_try_create_shared_memory ls openOk newFd mmapOk
        = ⟨ls, false, "shared memory already created"⟩
      ∧ ∀ createOk mapOk : Bool,
          windows_try_create_shared_memory ws createOk mapOk
            = ⟨ws, false, "shared memory already created"⟩ := by
  constructor
  · unfold linux_try_create_shared_memory
    rw [hl]
    simp
  · intro createOk mapOk
    unfold windows_try_create_shared_memory
    rw [hw]
    simp

/-- Witness for C4 at a concrete enabled state on each platform. -/
theorem C4_double_enable_fails_witness :
    linux_try_create_shared_memory ⟨some 3⟩ true 7 true
        = ⟨⟨some 3⟩, false, "shared memory already created"⟩
      ∧ ∀ createOk mapOk : Bool,
          windows_try_create_shared_memory ⟨true⟩ createOk mapOk
            = ⟨⟨true⟩, false, "shared memory already created"⟩ :=
  C4_double_enable_fails ⟨some 3⟩ 3 true 7 true ⟨true⟩ rfl rfl

/-! ## Theorems about the playback position bar -/

/-- C10: `progress_to_frame` always lands inside `[0, total_frames]`; it is 0
for non-positive progress, `total_frames` for progress at least 1, and the
product rounded to nearest in between — so a seek requested from the position
bar never targets a frame past the end of the log. -/
theorem C10_progress_to_frame_bounds (total_frames : ℕ) (progress : ℚ) :
    progress_to_frame total_frames progress ≤ total_frames
      ∧ progress_to_frame total_frames progress
        = if progress ≤ 0 then 0
          else if 1 ≤ progress then total_frames
          else (round ((total_frames : ℚ) * progress)).toNat := by
  constructor
  · unfold progress_to_frame
    split
    · exact Nat.zero_le _
    · split
      · exact le_refl _
      · rename_i h0 h1
        push_neg at h0 h1
        have hle : (total_frames : ℚ) * progress ≤ (total_frames : ℚ) := by
          calc (total_frames : ℚ) * progress ≤ (total_frames : ℚ) * 1 :=
                mul_le_mul_of_nonneg_left (le_of_lt h1) (by positivity)
            _ = (total_frames : ℚ) := mul_one _
        have hfl : ⌊(total_frames : ℚ) * progress + 1 / 2⌋ ≤ (total_frames : ℤ) := by
          rw [← Int.lt_add_one_iff, Int.floor_lt]
          push_cast
          linarith
        rw [← Int.toNat_ofNat total_frames]
        exact Int.toNat_le_toNat hfl
  · unfold progress_to_frame
    split
    · rfl
    · split
      · rfl
      · rw [round_eq]

/-! ## Theorems about the tick event loop -/

/-- Helper: a no-op result of `SDLEventWrapper::next` means the queue was
fully drained. -/
theorem next_noOp_remaining (evs : List SDLEvent) : ∀ s : SDLState,
    (SDLEventWrapper_next s evs).result = .noOp →
      (SDLEventWrapper_next s evs).remaining = [] := by
  induction evs with
  | nil => intro s _; rfl
  | cons e rest ih =>
      intro s
      cases e with
      | quit => simp [SDLEventWrapper_next]
      | gamepadAdded id openOk name =>
          by_cases hok : openOk
          · simp only [SDLEventWrapper_next, if_pos hok]
            exact ih _
          · simp only [SDLEventWrapper_next, if_neg hok]
            exact ih _
      | gamepadRemoved id =>
          cases hl : lookupController s.controllers id with
          | none => simp only [SDLEventWrapper_next, hl]; exact ih _
          | some p =>
              obtain ⟨pn, pm⟩ := p
              simp only [SDLEventWrapper_next, hl]
              exact ih _
      | axisMotion id a v =>
          cases hl : lookupController s.controllers id with
          | none => simp only [SDLEventWrapper_next, hl]; exact ih _
          | some p =>
              obtain ⟨pn, pm⟩ := p
              simp [SDLEventWrapper_next, hl]
      | buttonEvent id b d =>
          cases hl : lookupController s.controllers id with
          | none => simp only [SDLEventWrapper_next, hl]; exact ih _
          | some p =>
              obtain ⟨pn, pm⟩ := p
              simp [SDLEventWrapper_next, hl]
      | unhandled =>
          simp only [SDLEventWrapper_next]
          exact ih _

/-- Helper: a queue without quit events can produce neither a quit result nor
an unconsumed quit event. -/
theorem next_no_quit (evs : List SDLEvent) : ∀ s : SDLState,
    SDLEvent.quit ∉ evs →
      (SDLEventWrapper_next s evs).result ≠ .quitAction
        ∧ SDLEvent.quit ∉ (SDLEventWrapper_next s evs).remaining := by
  induction evs with
  | nil =>
      intro s _
      refine ⟨nofun, ?_⟩
      simp [SDLEventWrapper_next]
  | cons e rest ih =>
      intro s hq
      have hq2 : SDLEvent.quit ∉ rest := fun m => hq (List.mem_cons_of_mem _ m)
      cases e with
      | quit => exact absurd (List.mem_cons_self _ _) hq
      | gamepadAdded id openOk name =>
          by_cases hok : openOk
          · simp only [SDLEventWrapper_next, if_pos hok]
            exact ih _ hq2
          · simp only [SDLEventWrapper_next, if_neg hok]
            exact ih _ hq2
      | gamepadRemoved id =>
          cases hl : lookupController s.controllers id with
          | none => simp only [SDLEventWrapper_next, hl]; exact ih _ hq2
          | some p =>
              obtain ⟨pn, pm⟩ := p
              simp only [SDLEventWrapper_next, hl]
              exact ih _ hq2
      | axisMotion id a v =>
          cases hl : lookupController s.controllers id with
          | none => simp only [SDLEventWrapper_next, hl]; exact ih _ hq2
          | some p =>
              obtain ⟨pn, pm⟩ := p
              simp only [SDLEventWrapper_next, hl]
              exact ⟨nofun, hq2⟩
      | buttonEvent id b d =>
          cases hl : lookupController s.controllers id with
          | none => simp only [SDLEventWrapper_next, hl]; exact ih _ hq2
          | some p =>
              obtain ⟨pn, pm⟩ := p
              simp only [SDLEventWrapper_next, hl]
              exact ⟨nofun, hq2⟩
      | unhandled =>
          simp only [SDLEventWrapper_next]
          exact ih _ hq2

/-- Helper: `SDLEventWrapper::next` only makes controller connect and
disconnect calls, never the engine-advancing tick call. -/
theorem next_no_advance (evs : List SDLEvent) : ∀ s : SDLState,
    FrontendCall.tickAdvance ∉ (SDLEventWrapper_next s evs).calls := by
  induction evs with
  | nil => intro s; simp [SDLEventWrapper_next]
  | cons e rest ih =>
      intro s
      cases e with
      | quit => simp [SDLEventWrapper_next]
      | gamepadAdded id openOk name =>
          by_cases hok : openOk
          · simp only [SDLEventWrapper_next, if_pos hok, List.mem_cons]
            rintro (hc | hc)
            · cases hc
            · exact ih _ hc
          · simp only [SDLEventWrapper_next, if_neg hok]
            exact ih _
      | gamepadRemoved id =>
          cases hl : lookupController s.controllers id with
          | none => simp only [SDLEventWrapper_next, hl]; exact ih _
          | some p =>
              obtain ⟨pn, pm⟩ := p
              simp only [SDLEventWrapper_next, hl, List.mem_cons]
              rintro (hc | hc)
              · cases hc
              · exact ih _ hc
      | axisMotion id a v =>
          cases hl : lookupController s.controllers id with
          | none => simp only [SDLEventWrapper_next, hl]; exact ih _
          | some p =>
              obtain ⟨pn, pm⟩ := p
              simp [SDLEventWrapper_next, hl]
      | buttonEvent id b d =>
          cases hl : lookupController s.controllers id with
          | none => simp only [SDLEventWrapper_next, hl]; exact ih _
          | some p =>
              obtain ⟨pn, pm⟩ := p
              simp [SDLEventWrapper_next, hl]
      | unhandled =>
          simp only [SDLEventWrapper_next]
          exact ih _

/-- Helper: on a queue without quit events, the polling loop of
`MainWindow::tick` drains the whole queue, does not return early, and never
itself advances the engine. -/
theorem tick_event_loop_props (s : SDLState) (events : List SDLEvent)
    (closeOk : Bool) (hq : SDLEvent.quit ∉ events) :
    (tick_event_loop s events closeOk).remaining = []
      ∧ (tick_event_loop s events closeOk).earlyReturn = false
      ∧ FrontendCall.tickAdvance ∉ (tick_event_loop s events closeOk).calls := by
  induction s, events, closeOk using tick_event_loop.induct with
  | case1 s events closeOk out h =>
      have hres : (SDLEventWrapper_next s events).result = NextAction.noOp := h
      rw [tick_event_loop]
      split
      · exact ⟨next_noOp_remaining events s hres, rfl, next_no_advance events s⟩
      · rename_i heq; rw [hres] at heq; cases heq
      · rename_i heq; rw [hres] at heq; cases heq
      · rename_i heq; rw [hres] at heq; cases heq
  | case2 s events out h =>
      have hres : (SDLEventWrapper_next s events).result = NextAction.quitAction := h
      exact absurd hres (next_no_quit events s hq).1
  | case3 s events closeOk out h hclose ih =>
      have hres : (SDLEventWrapper_next s events).result = NextAction.quitAction := h
      exact absurd hres (next_no_quit events s hq).1
  | case4 s events closeOk out m a v h ih =>
      have hres : (SDLEventWrapper_next s events).result = NextAction.axisAction m a v := h
      have hq2 : SDLEvent.quit ∉ (SDLEventWrapper_next s events).remaining :=
        (next_no_quit events s hq).2
      have ih2 := ih hq2
      rw [tick_event_loop]
      split
      · rename_i heq; rw [hres] at heq; cases heq
      · rename_i heq; rw [hres] at heq; cases heq
      · rename_i m2 a2 v2 heq
        rw [hres] at heq
        cases heq
        refine ⟨ih2.1, ih2.2.1, ?_⟩
        intro hm
        rcases List.mem_append.mp hm with hc | hc
        · exact next_no_advance events s hc
        · rcases List.mem_cons.mp hc with hc2 | hc2
          · cases hc2
          · exact ih2.2.2 hc2
      · rename_i heq; rw [hres] at heq; cases heq
  | case5 s events closeOk out m b p h ih =>
      have hres : (SDLEventWrapper_next s events).result = NextAction.buttonAction m b p := h
      have hq2 : SDLEvent.quit ∉ (SDLEventWrapper_next s events).remaining :=
        (next_no_quit events s hq).2
      have ih2 := ih hq2
      rw [tick_event_loop]
      split
      · rename_i heq; rw [hres] at heq; cases heq
      · rename_i heq; rw [hres] at heq; cases heq
      · rename_i heq; rw [hres] at heq; cases heq
      · rename_i m2 b2 p2 heq
        rw [hres] at heq
        cases heq
        refine ⟨ih2.1, ih2.2.1, ?_⟩
        intro hm
        rcases List.mem_append.mp hm with hc | hc
        · exact next_no_advance events s hc
        · rcases List.mem_cons.mp hc with hc2 | hc2
          · cases hc2
          · exact ih2.2.2 hc2

/-- C8: within one invocation of `MainWindow::tick` on a queue of pending
device events (no quit), the polling loop consumes the entire queue — every
controller connect/disconnect is forwarded inside `SDLEventWrapper::next`,
every axis/button event is forwarded by the loop body — and only then is
`supershuckie_frontend_tick` called: the trace is exactly the loop's
forwarding calls followed by the single engine advance, which never occurs
among the forwarding calls.  Device-event consumption therefore strictly
precedes frame advancement in each tick. -/
theorem C8_device_events_before_advance (s : SDLState) (events : List SDLEvent)
    (closeOk : Bool) (hq : SDLEvent.quit ∉ events) :
    (tick_event_loop s events closeOk).remaining = []
      ∧ MainWindow_tick s events closeOk
          = (tick_event_loop s events closeOk).calls ++ [FrontendCall.tickAdvance]
      ∧ FrontendCall.tickAdvance ∉ (tick_event_loop s events closeOk).calls := by
  obtain ⟨h1, h2, h3⟩ := tick_event_loop_props s events closeOk hq
  refine ⟨h1, ?_, h3⟩
  simp [MainWindow_tick, h2]

/-- Witness for C8: a concrete queue holding a connect, a button press, an
axis motion and a disconnect, polled from an empty controller table. -/
theorem C8_device_events_before_advance_witness :
    (tick_event_loop ⟨[], 0⟩
        [SDLEvent.gamepadAdded 7 true "pad", SDLEvent.buttonEvent 7 1 true,
          SDLEvent.axisMotion 7 2 16384, SDLEvent.gamepadRemoved 7]
        true).remaining = []
      ∧ MainWindow_tick ⟨[], 0⟩
          [SDLEvent.gamepadAdded 7 true "pad", SDLEvent.buttonEvent 7 1 true,
            SDLEvent.axisMotion 7 2 16384, SDLEvent.gamepadRemoved 7] true
          = (tick_event_loop ⟨[], 0⟩
              [SDLEvent.gamepadAdded 7 true "pad", SDLEvent.buttonEvent 7 1 true,
                SDLEvent.axisMotion 7 2 16384, SDLEvent.gamepadRemoved 7]
              true).calls ++ [FrontendCall.tickAdvance]
      ∧ FrontendCall.tickAdvance ∉ (tick_event_loop ⟨[], 0⟩
          [SDLEvent.gamepadAdded 7 true "pad", SDLEvent.buttonEvent 7 1 true,
            SDLEvent.axisMotion 7 2 16384, SDLEvent.gamepadRemoved 7]
          true).calls :=
  C8_device_events_before_advance ⟨[], 0⟩
    [SDLEvent.gamepadAdded 7 true "pad", SDLEvent.buttonEvent 7 1 true,
      SDLEvent.axisMotion 7 2 16384, SDLEvent.gamepadRemoved 7]
    true (by simp)

/-! ## Theorems about the Qt save-state layer -/

/-- C5: after a refresh of the action states while a replay is in active
playback (game running, frontend present, not recording — recording and
playback are mutually exclusive per the session invariant), every quick-slot
load action and the undo/redo load actions are disabled, every quick-slot
save action stays enabled, and an explicit named save-state load is still
permitted: `MainWindow::load_save_state` behaves identically in every replay
status, since its body has no playback guard. -/
theorem C5_playback_disables_stack_loads :
    (∀ i : Fin 9,
        (refresh_action_states true true false true).quick_load_enabled i = false)
      ∧ (refresh_action_states true true false true).undo_load_save_state_enabled
          = false
      ∧ (refresh_action_states true true false true).redo_load_save_state_enabled
          = false
      ∧ (∀ i : Fin 9,
        (refresh_action_states true true false true).quick_save_enabled i = true)
      ∧ ∀ (status other : ReplayStatus) (state : String) (res : Bool × String),
          load_save_state_during status state res
            = load_save_state_during other state res :=
  ⟨fun _ => rfl, rfl, rfl, fun _ => rfl, fun _ _ _ _ => rfl⟩

/-- C7: a load of an absent save state leaves the error buffer empty and the
Qt layer turns it into a plain status message; every other failure carries a
non-empty human-readable message and is surfaced as an error dialog. -/
theorem C7_load_save_state_not_found (name msg : String) (hmsg : msg ≠ "") :
    (frontend_load_save_state_result .notFound).2 = ""
      ∧ (load_save_state name (frontend_load_save_state_result .notFound)).2
          = .statusMessage ("State \"" ++ name ++ "\" does not exist")
      ∧ (load_save_state name (frontend_load_save_state_result (.failure msg))).2
          = .errorDialog "Failed to load save state" msg := by
  refine ⟨rfl, rfl, ?_⟩
  unfold load_save_state frontend_load_save_state_result
  simp [hmsg]

/-- Witness for C7 at a concrete slot name and a concrete structural error. -/
theorem C7_load_save_state_not_found_witness :
    (frontend_load_save_state_result .notFound).2 = ""
      ∧ (load_save_state "slot-a" (frontend_load_save_state_result .notFound)).2
          = .statusMessage ("State \"" ++ "slot-a" ++ "\" does not exist")
      ∧ (load_save_state "slot-a"
            (frontend_load_save_state_result (.failure "corrupt snapshot"))).2
          = .errorDialog "Failed to load save state" "corrupt snapshot" :=
  C7_load_save_state_not_found "slot-a" "corrupt snapshot" (by decide)

/-- C9: for every quick-slot index between 1 and 9, the quick-save and
quick-load actions target the save state named exactly `quick-<index>` (the
decimal rendering of the index), and they are literally the same
`make_save_state` / `load_save_state` operations that user-named slots go
through, so quick slots share one namespace with user-named save states. -/
theorem C9_quick_slot_naming (index : Nat) (res : Bool × String)
    (h1 : 1 ≤ index) (h9 : index ≤ 9) :
    (quick_save index res).1 = .create ("quick-" ++ Nat.repr index)
      ∧ (quick_load index res).1 = .load ("quick-" ++ Nat.repr index)
      ∧ quick_save index res = make_save_state ("quick-" ++ Nat.repr index) res
      ∧ quick_load index res = load_save_state ("quick-" ++ Nat.repr index) res :=
  ⟨rfl, rfl, rfl, rfl⟩

/-- Witness for C9 at quick slot 3: the name is exactly "quick-3". -/
theorem C9_quick_slot_naming_witness :
    (quick_save 3 (true, "quick-3")).1 = .create "quick-3"
      ∧ (quick_load 3 (true, "quick-3")).1 = .load "quick-3"
      ∧ quick_save 3 (true, "quick-3")
          = make_save_state ("quick-" ++ Nat.repr 3) (true, "quick-3")
      ∧ quick_load 3 (true, "quick-3")
          = load_save_state ("quick-" ++ Nat.repr 3) (true, "quick-3") := by
  have h := C9_quick_slot_naming 3 (true, "quick-3") (by decide) (by decide)
  exact ⟨by rw [h.1]; rfl, by rw [h.2.1]; rfl, h.2.2.1, h.2.2.2⟩

/-! ## Theorems about replay playback start -/

/-- C6: starting playback of a replay whose ROM identity differs from the
loaded ROM first fails with `lenient = false`, writing a descriptive error;
`MainWindow::do_play_replay` then shows that error and performs exactly one
retry with `lenient = true`, which proceeds despite the mismatch, after which
the session is in playback. -/
theorem C6_identity_mismatch_lenient_retry (st : FrontendReplayState)
    (log : ReplayLogHeader) (hstatus : st.status ≠ .playingBack)
    (hfmt : log.formatOk = true) (hmism : log.romIdentity ≠ st.romIdentity) :
    (supershuckie_frontend_load_replay st log false).1 = false
      ∧ (supershuckie_frontend_load_replay st log false).2.2
          = "the replay was recorded against a different ROM"
      ∧ (supershuckie_frontend_load_replay st log true).1 = true
      ∧ (do_play_replay st (some log)).lenientAttempts = [false, true]
      ∧ (do_play_replay st (some log)).finalState.status = .playingBack
      ∧ (do_play_replay st (some log)).reports
          = [.errorDialog "Replay file issues detected"
              "the replay was recorded against a different ROM",
            .statusMessage ("Opened replay file \"" ++ log.name ++ "\"")] := by
  have hfail : supershuckie_frontend_load_replay st log false
      = (false, st, "the replay was recorded against a different ROM") := by
    unfold supershuckie_frontend_load_replay
    simp [hfmt, hmism]
  have hok : supershuckie_frontend_load_replay st log true
      = (true, { st with status := .playingBack }, "") := by
    unfold supershuckie_frontend_load_replay
    simp [hfmt]
  refine ⟨by rw [hfail], by rw [hfail], by rw [hok], ?_, ?_, ?_⟩
  all_goals
    unfold do_play_replay
    rw [if_neg hstatus]
    simp only [hfail, hok]
  all_goals rfl

/-- Witness for C6: a concrete mismatched replay against a loaded ROM. -/
theorem C6_identity_mismatch_lenient_retry_witness :
    (supershuckie_frontend_load_replay ⟨"rom-a", .noReplay⟩
        ⟨"run1", "rom-b", true⟩ false).1 = false
      ∧ (supershuckie_frontend_load_replay ⟨"rom-a", .noReplay⟩
            ⟨"run1", "rom-b", true⟩ false).2.2
          = "the replay was recorded against a different ROM"
      ∧ (supershuckie_frontend_load_replay ⟨"rom-a", .noReplay⟩
            ⟨"run1", "rom-b", true⟩ true).1 = true
      ∧ (do_play_replay ⟨"rom-a", .noReplay⟩
            (some ⟨"run1", "rom-b", true⟩)).lenientAttempts = [false, true]
      ∧ (do_play_replay ⟨"rom-a", .noReplay⟩
            (some ⟨"run1", "rom-b", true⟩)).finalState.status = .playingBack
      ∧ (do_play_replay ⟨"rom-a", .noReplay⟩
            (some ⟨"run1", "rom-b", true⟩)).reports
          = [.errorDialog "Replay file issues detected"
              "the replay was recorded against a different ROM",
            .statusMessage ("Opened replay file \"" ++ "run1" ++ "\"")] :=
  C6_identity_mismatch_lenient_retry ⟨"rom-a", .noReplay⟩ ⟨"run1", "rom-b", true⟩
    (by decide) rfl (by decide)

/-! ## Theorems about replay determinism -/

/-- Helper: the engine-and-cursor part of one playback tick does not depend
on the host environment. -/
theorem playbackTick_env_free {E I : Type} (step : E → I → E)
    (env1 env2 : HostEnv) (st : E × Nat) (log : List I) :
    (playbackTick step env1 st log).1 = (playbackTick step env2 st log).1 := by
  unfold playbackTick
  cases h : log[st.2]? <;> simp [h]

/-- Helper: playback of the log recorded over `frames` frames replays the
recorded engine states exactly: after `n ≤ frames` ticks the engine snapshot
is the recorded snapshot of frame `n` and the cursor sits at `n`. -/
theorem playbackRun_replays_record {E I : Type} (step : E → I → E)
    (env : HostEnv) (s0 : E) (live : Nat → I) (frames : Nat) :
    ∀ n, n ≤ frames →
      playbackRun step env s0 (recordedLog live frames) n
        = (recordRun step s0 live n, n) := by
  intro n
  induction n with
  | zero => intro _; rfl
  | succ n ih =>
      intro hle
      have hlt : n < frames := Nat.lt_of_succ_le hle
      have hget : (recordedLog live frames)[n]? = some (live n) := by
        unfold recordedLog
        rw [List.getElem?_map, List.getElem?_range hlt]
        rfl
      rw [playbackRun, ih (Nat.le_of_lt hlt)]
      unfold playbackTick
      simp [hget]
      rfl

/-- C1: the determinism contract.  For every engine satisfying the engine
contract (stepping is a pure function of the (engine state, frame input)
pair), every starting state and every input log: (1) repeated playback with
arbitrary host environments (wall clock, device identity, UI state) produces
identical (snapshot, cursor) pairs at every frame index — two runs with equal
(engine-state, input-log) pairs agree at every frame; and (2) recording `N`
frames of live input and playing the recorded log back for `n ≤ N` frames
reaches exactly the engine state of the original run at frame index `n`, for
all `N`. -/
theorem C1_playback_determinism {E I : Type} (step : E → I → E)
    (env1 env2 : HostEnv) (s0 : E) (log : List I) :
    (∀ n : Nat,
        playbackRun step env1 s0 log n = playbackRun step env2 s0 log n)
      ∧ ∀ (live : Nat → I) (frames n : Nat), n ≤ frames →
          (playbackRun step env1 s0 (recordedLog live frames) n).1
            = recordRun step s0 live n := by
  constructor
  · intro n
    induction n with
    | zero => rfl
    | succ n ih =>
        rw [playbackRun, playbackRun, ih]
        exact playbackTick_env_free step env1 env2 _ log
  · intro live frames n hle
    rw [playbackRun_replays_record step env1 s0 live frames n hle]

/-- Witness for C1 at a concrete engine (state doubling plus input), a
concrete two-frame live input stream, and two different host environments. -/
theorem C1_playback_determinism_witness :
    (∀ n : Nat,
        playbackRun (fun (e i : Nat) => 2 * e + i) ⟨5, 1, true⟩ 1 [3, 4] n
          = playbackRun (fun e i => 2 * e + i) ⟨9, 2, false⟩ 1 [3, 4] n)
      ∧ (playbackRun (fun (e i : Nat) => 2 * e + i) ⟨5, 1, true⟩ 1
            (recordedLog (fun k => k + 3) 2) 2).1
          = recordRun (fun e i => 2 * e + i) 1 (fun k => k + 3) 2 :=
  ⟨(C1_playback_determinism (fun e i => 2 * e + i) ⟨5, 1, true⟩ ⟨9, 2, false⟩
      1 [3, 4]).1,
    (C1_playback_determinism (fun e i => 2 * e + i) ⟨5, 1, true⟩ ⟨9, 2, false⟩
      1 [3, 4]).2 (fun k => k + 3) 2 2 (Nat.le_refl 2)⟩

end SuperShuckie
